import Mathlib

/-!
Verification of the core of the dory dynamic storage provisioner:
the claim controller / resolver (common/k8s/provisioner/claim.go) and the
docker volume plugin client with its discovery helper (package dockervol).

Modelling conventions:
* Go maps are association lists (List (String × String)) with first-match
  lookup; Go map iteration follows list order.
* A Go (value, error) return is a pair whose second component is
  Option String (some msg models a non-nil error), or an Except String value.
* The transport (connectivity.Client.DoJSON, docker registry query, the
  kube claim cache) is external to the two source files, so each modelled
  function takes its outcome as an explicit argument.
* time.Sleep calls are counted, and eventRecorder.Event calls are counted.
-/

/-- Phase of a persistent volume claim (api_v1.ClaimPending / ClaimBound / ClaimLost). -/
inductive ClaimPhase where
  | Pending
  | Bound
  | Lost
  deriving DecidableEq

/-- Go two-value map lookup v, ok := m[k] on an association-list map:
the value (zero value "" when absent) together with the presence flag. -/
def mapGet (m : List (String × String)) (k : String) : String × Bool :=
  match m.find? (fun kv => kv.1 == k) with
  | some kv => (kv.2, true)
  | none => ("", false)

/-- The fields of api_v1.PersistentVolumeClaim that claim.go reads:
ObjectMeta.Name / .Namespace / .UID / .Annotations, Status.Phase and
Spec.StorageClassName. -/
structure PVClaim where
  name : String
  nspace : String
  uid : String
  phase : ClaimPhase
  anns : List (String × String)
  storageClassName : Option String
  deriving DecidableEq

/-- The legacy annotation key api_v1.BetaStorageClassAnnotation. -/
def betaStorageClassKey : String := "volume.beta.kubernetes.io/storage-class"

/-- strings.HasPrefix(s, pre) from the Go standard library.  (Stated through
String.isPrefixOf, which recurses structurally over the character lists, so
that concrete instances evaluate by rfl.) -/
def hasPfx (s pre : String) : Bool := pre.data.isPrefixOf s.data

/-- strings.ToLower from the Go standard library (the ASCII mapping of
Char.toLower suffices for the keys this code handles). -/
def toLowerStr (s : String) : String := ⟨s.data.map Char.toLower⟩

/-- getClaimClassName from claim.go: name, beta := Annotations[BetaStorageClassAnnotation];
if !beta && Spec.StorageClassName != nil then the structured field; else name. -/
def getClaimClassName (claim : PVClaim) : String :=
  let r := mapGet claim.anns betaStorageClassKey
  let name := r.1
  let beta := r.2
  if !beta && claim.storageClassName.isSome then
    claim.storageClassName.getD ""
  else
    name

/-- The fields of a storage class that processAddedClaim reads. -/
structure StorageClass where
  name : String
  provisioner : String
  deriving DecidableEq

/-- Observable outcome of processAddedClaim: either one of the three logged skips,
or provisioning, which registers the claim UID in the dedup table
(p.addMessageChan) and calls p.provisionVolume(claim, class). -/
inductive AddedClaimOutcome where
  | skippedWrongPhase
  | skippedClassLookup (msg : String)
  | skippedProvisionerMismatch
  | provisioned (uid : String) (cls : StorageClass)
  deriving DecidableEq

/-- processAddedClaim from claim.go; getClass models p.getClass (the external
class store lookup) and namePfx models p.namePrefix. -/
def processAddedClaim (namePfx : String) (getClass : String → Except String StorageClass)
    (claim : PVClaim) : AddedClaimOutcome :=
  if claim.phase ≠ ClaimPhase.Pending then
    AddedClaimOutcome.skippedWrongPhase
  else
    let className := getClaimClassName claim
    match getClass className with
    | Except.error e => AddedClaimOutcome.skippedClassLookup e
    | Except.ok cls =>
      if !(hasPfx cls.provisioner namePfx) then
        AddedClaimOutcome.skippedProvisionerMismatch
      else
        AddedClaimOutcome.provisioned claim.uid cls

/-- The wait loop at the top of getClaimFromPVCName, for a cache whose emptiness
stays fixed during the call: for len(list) < 1 { if i > maxWait { timeout };
sleep(1s); i++ }.  Returns (number of sleeps performed, timed out?). -/
def claimWaitLoop (cacheEmpty : Bool) (maxWait i : Nat) : Nat × Bool :=
  if cacheEmpty then
    if _h : i > maxWait then
      (0, true)
    else
      let r := claimWaitLoop cacheEmpty maxWait (i + 1)
      (r.1 + 1, r.2)
  else
    (0, false)
termination_by maxWait + 1 - i
decreasing_by omega

/-- Observable result of getClaimFromPVCName: the returned claim, the returned
error, the number of time.Sleep(time.Second) calls, and the number of
eventRecorder warning events. -/
structure XRefResult where
  claim : Option PVClaim
  err : Option String
  sleeps : Nat
  warnEvents : Nat
  deriving DecidableEq

/-- The match condition of getClaimFromPVCName's scan:
claim.Name == claimName && claim.Namespace == pv.Namespace && phase == Bound. -/
def claimMatches (pvNspace claimName : String) (c : PVClaim) : Bool :=
  c.name == claimName && c.nspace == pvNspace && c.phase == ClaimPhase.Bound

/-- getClaimFromPVCName from claim.go, for a claim cache that stays fixed during
the call.  pvNspace is pv.Namespace.  On timeout it emits one warning event and
returns a non-nil error; otherwise it scans the cache once and returns the first
match, or — when no entry matches — emits one warning event and returns nil
claim together with a nil error. -/
def getClaimFromPVCName (cache : List PVClaim) (pvNspace claimName : String)
    (maxWaitForClaims : Nat) : XRefResult :=
  let w := claimWaitLoop cache.isEmpty maxWaitForClaims 0
  if w.2 then
    { claim := none,
      err := some ("No Claims found after waiting for " ++ toString maxWaitForClaims
        ++ " seconds"),
      sleeps := w.1, warnEvents := 1 }
  else
    match cache.find? (claimMatches pvNspace claimName) with
    | some c => { claim := some c, err := none, sleeps := w.1, warnEvents := 0 }
    | none => { claim := none, err := none, sleeps := w.1, warnEvents := 1 }

/-- Go map assignment m[k] = v on an association-list map: replaces the value of
an existing key in place, otherwise appends the binding. -/
def mapSet (m : List (String × String)) (k v : String) : List (String × String) :=
  if m.any (fun kv => kv.1 == k) then
    m.map (fun kv => if kv.1 == k then (k, v) else kv)
  else
    m ++ [(k, v)]

/-- getClaimOverrideOptions from claim.go: for each override key, every
annotation whose lowercased key starts with p.namePrefix ++ lowercased override
writes its value into the options map under the override key. -/
def getClaimOverrideOptions (namePfx : String) (claim : PVClaim)
    (overrides : List String) (optionsMap : List (String × String)) :
    List (String × String) :=
  overrides.foldl
    (fun acc override =>
      claim.anns.foldl
        (fun acc2 kv =>
          if hasPfx (toLowerStr kv.1) (namePfx ++ toLowerStr override) then
            mapSet acc2 override kv.2
          else
            acc2)
        acc)
    optionsMap

/-- The NotFound marker constant of dockervol: the beginning of a driver
not-found error message. -/
def notFoundMarker : String := "Unable to find"

/-- defaultSocketPath from dockervol. -/
def defaultSocketPath : String := "/run/docker/plugins/nimble.sock"

/-- DockerVolume from dockervol (Status omitted: never read by the client). -/
structure DockerVolume where
  name : String
  mountpoint : String
  deriving DecidableEq

/-- GetResponse from dockervol. -/
structure GetResponse where
  volume : DockerVolume
  err : String
  deriving DecidableEq

/-- GetListResponse from dockervol. -/
structure GetListResponse where
  volumes : List DockerVolume
  err : String
  deriving DecidableEq

/-- MountResponse from dockervol. -/
structure MountResponse where
  mountpoint : String
  err : String
  deriving DecidableEq

/-- PluginCapabilities from dockervol. -/
structure PluginCapabilities where
  scope : String
  deriving DecidableEq

/-- CapResponse from dockervol.  Unlike every other response struct it declares
no Err field and does not implement the Errorer interface. -/
structure CapResponse where
  capabilities : PluginCapabilities
  deriving DecidableEq

/-- The Errorer interface of dockervol. -/
class Errorer (α : Type) where
  getErr : α → String

instance : Errorer GetResponse := ⟨GetResponse.err⟩

instance : Errorer GetListResponse := ⟨GetListResponse.err⟩

instance : Errorer MountResponse := ⟨MountResponse.err⟩

theorem getErr_get (g : GetResponse) : Errorer.getErr g = g.err := rfl

theorem getErr_getList (g : GetListResponse) : Errorer.getErr g = g.err := rfl

theorem getErr_mount (g : MountResponse) : Errorer.getErr g = g.err := rfl

/-- driverErrorCheck from dockervol: a non-empty Err field becomes an error
carrying exactly that text. -/
def driverErrorCheck {α : Type} [Errorer α] (e : α) : Option String :=
  if Errorer.getErr e ≠ "" then some (Errorer.getErr e) else none

/-- Capabilities from dockervol.  driverRes models the outcome of
dvp.driverRun on the CapabilitiesURI request; note the body performs no
driverErrorCheck on the decoded response. -/
def Capabilities (driverRes : Except String CapResponse) : Except String CapResponse :=
  match driverRes with
  | Except.error e => Except.error e
  | Except.ok res => Except.ok res

/-- Get from dockervol (the request carries the volume name; driverRes models
the outcome of dvp.driverRun on the GetURI request). -/
def Get (driverRes : Except String GetResponse) : Except String GetResponse :=
  match driverRes with
  | Except.error e => Except.error e
  | Except.ok res =>
    match driverErrorCheck res with
    | some e => Except.error e
    | none => Except.ok res

/-- List from dockervol (renamed: List is the Lean list type). -/
def ListVolumes (driverRes : Except String GetListResponse) :
    Except String GetListResponse :=
  match driverRes with
  | Except.error e => Except.error e
  | Except.ok res =>
    match driverErrorCheck res with
    | some e => Except.error e
    | none => Except.ok res

/-- mounter from dockervol: shared body of Mount and Unmount, parameterized by
which URI is hit; returns the mount point. -/
def mounter (name mountID : String) (driverRes : Except String MountResponse) :
    Except String String :=
  if name = "" then Except.error "name is required"
  else
    match driverRes with
    | Except.error e => Except.error e
    | Except.ok res =>
      match driverErrorCheck res with
      | some e => Except.error e
      | none => Except.ok res.mountpoint

/-- Mount from dockervol: mounter against MountURI. -/
def Mount (name mountID : String) (driverRes : Except String MountResponse) :
    Except String String :=
  mounter name mountID driverRes

/-- Unmount from dockervol: mounter against UnmountURI, discarding the path. -/
def Unmount (name mountID : String) (driverRes : Except String MountResponse) :
    Except String Unit :=
  match mounter name mountID driverRes with
  | Except.error e => Except.error e
  | Except.ok _ => Except.ok ()

/-- Delete from dockervol (hits RemoveURI). -/
def Delete (name : String) (driverRes : Except String GetResponse) :
    Except String Unit :=
  if name = "" then Except.error "name is required"
  else
    match driverRes with
    | Except.error e => Except.error e
    | Except.ok res =>
      match driverErrorCheck res with
      | some e => Except.error e
      | none => Except.ok ()

/-- Request from dockervol; Opts values are modelled as strings. -/
structure Request where
  name : String
  opts : List (String × String)
  deriving DecidableEq

/-- The key-deletion loop at the top of Create: removes every key equal to
"name" and, when stripK8sOpts is set, every key with the kubernetes.io
namespace marker. -/
def stripCreateOpts (stripK8sOpts : Bool) (options : List (String × String)) :
    List (String × String) :=
  options.filter
    (fun kv => !(kv.1 == "name" || (stripK8sOpts && hasPfx kv.1 "kubernetes.io")))

/-- Observable outcome of Create: the returned (volume name, error) pair, the
request transmitted to the driver (none when no round trip happened), and the
caller's options map after the call (Go delete mutates it in place). -/
structure CreateResult where
  result : Except String String
  sentRequest : Option Request
  finalOptions : List (String × String)

/-- Create from dockervol; driver models dvp.driverRun on the CreateURI request. -/
def Create (stripK8sOpts : Bool) (name : String) (options : List (String × String))
    (driver : Request → Except String GetResponse) : CreateResult :=
  if name = "" then
    { result := Except.error "name is required", sentRequest := none,
      finalOptions := options }
  else
    let opts := stripCreateOpts stripK8sOpts options
    let req : Request := { name := name, opts := opts }
    match driver req with
    | Except.error e =>
      { result := Except.error e, sentRequest := some req, finalOptions := opts }
    | Except.ok res =>
      match driverErrorCheck res with
      | some e =>
        { result := Except.error e, sentRequest := some req, finalOptions := opts }
      | none =>
        { result := Except.ok res.volume.name, sentRequest := some req,
          finalOptions := opts }

/-- A wire-level response body as the plugin sends it for Capabilities: the
payload plus the Err field that the wire convention puts on every response. -/
structure RawWireResponse where
  capabilities : PluginCapabilities
  err : String
  deriving DecidableEq

/-- JSON decoding of a wire response into CapResponse: Go's json.Unmarshal
silently drops the Err field because CapResponse does not declare it. -/
def decodeCapResponse (r : RawWireResponse) : CapResponse :=
  { capabilities := r.capabilities }

/-- A docker V2 plugin registry entry as read by getV2PluginSocket: Name, ID,
Enabled, and Config.Interface.Socket (flattened to socket). -/
structure DockerPlugin where
  name : String
  id : String
  enabled : Bool
  socket : String
  deriving DecidableEq

/-- The name-match condition of getV2PluginSocket's scan:
strings.Compare(name, plugin.Name) == 0 or
strings.Compare(name ++ ":latest", plugin.Name) == 0. -/
def pluginNameMatches (name : String) (p : DockerPlugin) : Bool :=
  name == p.name || (name ++ ":latest") == p.name

/-- The socket path getV2PluginSocket synthesizes:
/run/docker/plugins/<plugin ID>/<interface socket filename>. -/
def pluginSocketPath (p : DockerPlugin) : String :=
  "/run/docker/plugins/" ++ p.id ++ "/" ++ p.socket

/-- The scan loop of getV2PluginSocket over the registry listing. -/
def findV2PluginSocket (name : String) : List DockerPlugin → String × Option String
  | [] => ("", some ("unable to find V2 plugin named " ++ name))
  | p :: rest =>
    if pluginNameMatches name p then
      if !p.enabled then
        (pluginSocketPath p,
          some ("found Docker V2 Plugin named " ++ name ++ ", but it is disabled"))
      else
        (pluginSocketPath p, none)
    else
      findV2PluginSocket name rest

/-- getV2PluginSocket from dockervol; pluginsGet models the outcome of
c.PluginsGet() against the docker registry. -/
def getV2PluginSocket (pluginsGet : Except String (List DockerPlugin))
    (name : String) : String × Option String :=
  match pluginsGet with
  | Except.error e =>
    ("", some ("failed to get V2 plugins from docker. error=" ++ e))
  | Except.ok plugins => findV2PluginSocket name plugins

/-- The fields of dockervol.Options that NewDockerVolumePlugin reads (the
logging fields are ignored by it). -/
structure Options where
  socketPath : String
  stripK8sFromOptions : Bool
  listOfStorageResourceOptions : List String
  factorForConversion : Nat
  deriving DecidableEq

/-- The client value NewDockerVolumePlugin builds; socketPath models
connectivity.NewSocketClient(options.SocketPath). -/
structure DockerVolumePlugin where
  stripK8sOpts : Bool
  socketPath : String
  listOfStorageResourceOptions : List String
  factorForConversion : Nat
  deriving DecidableEq

/-- The (client, error) pair NewDockerVolumePlugin returns. -/
structure NewPluginResult where
  dvp : Option DockerVolumePlugin
  err : Option String
  deriving DecidableEq

/-- The socket resolution step at the top of NewDockerVolumePlugin: a locator
without a leading "/" is treated as a plugin name and resolved through
discovery; an absolute locator passes through with no error. -/
def resolveSocketPath (disc : String → String × Option String)
    (socketPath : String) : String × Option String :=
  if !(hasPfx socketPath "/") then disc socketPath
  else (socketPath, none)

/-- NewDockerVolumePlugin from dockervol with the discovery step abstracted as
disc (the source instantiates disc with getV2PluginSocket; capProbe models the
transport outcome of the post-construction Capabilities connectivity probe at
the resolved socket path). -/
def newDockerVolumePluginWith (disc : String → String × Option String)
    (capProbe : String → Except String CapResponse) (options : Options) :
    NewPluginResult :=
  let r := resolveSocketPath disc options.socketPath
  match r.2 with
  | some e => { dvp := none, err := some e }
  | none =>
    let socketPath := if r.1 = "" then defaultSocketPath else r.1
    let dvp : DockerVolumePlugin :=
      { stripK8sOpts := options.stripK8sFromOptions, socketPath := socketPath,
        listOfStorageResourceOptions := options.listOfStorageResourceOptions,
        factorForConversion := options.factorForConversion }
    match Capabilities (capProbe socketPath) with
    | Except.error e => { dvp := some dvp, err := some e }
    | Except.ok _ => { dvp := some dvp, err := none }

/-- NewDockerVolumePlugin from dockervol: the discovery step is
getV2PluginSocket against the docker registry. -/
def NewDockerVolumePlugin (pluginsGet : Except String (List DockerPlugin))
    (capProbe : String → Except String CapResponse) (options : Options) :
    NewPluginResult :=
  newDockerVolumePluginWith (getV2PluginSocket pluginsGet) capProbe options


/-! ## Behaviour of the cross-reference wait loop -/

theorem claimWaitLoop_not_empty (maxWait i : Nat) :
    claimWaitLoop false maxWait i = (0, false) := by
  unfold claimWaitLoop
  simp

theorem claimWaitLoop_empty (maxWait i : Nat) :
    claimWaitLoop true maxWait i = (maxWait + 1 - i, true) := by
  unfold claimWaitLoop
  by_cases h : i > maxWait
  · simp only [if_true, dif_pos h, Prod.mk.injEq]
    exact ⟨by omega, trivial⟩
  · simp only [if_true, dif_neg h, claimWaitLoop_empty maxWait (i + 1), Prod.mk.injEq]
    exact ⟨by omega, trivial⟩
termination_by maxWait + 1 - i
decreasing_by omega

/-- On an empty (and unchanging) cache, getClaimFromPVCName sleeps maxWait + 1
times, emits one warning event, and returns a non-nil not-found error. -/
theorem getClaimFromPVCName_empty (pvNspace claimName : String) (maxWait : Nat) :
    getClaimFromPVCName [] pvNspace claimName maxWait =
      { claim := none,
        err := some ("No Claims found after waiting for " ++ toString maxWait
          ++ " seconds"),
        sleeps := maxWait + 1, warnEvents := 1 } := by
  unfold getClaimFromPVCName
  simp [claimWaitLoop_empty]

/-- On a non-empty cache, getClaimFromPVCName never sleeps: it scans once and
returns the first match (no event, nil error), or — when nothing matches —
nil claim and nil error with one warning event. -/
theorem getClaimFromPVCName_cons (c : PVClaim) (rest : List PVClaim)
    (pvNspace claimName : String) (maxWait : Nat) :
    getClaimFromPVCName (c :: rest) pvNspace claimName maxWait =
      match (c :: rest).find? (claimMatches pvNspace claimName) with
      | some m => { claim := some m, err := none, sleeps := 0, warnEvents := 0 }
      | none => { claim := none, err := none, sleeps := 0, warnEvents := 1 } := by
  unfold getClaimFromPVCName
  rw [show (c :: rest).isEmpty = false from rfl, claimWaitLoop_not_empty]
  rfl

/-- A concrete Bound claim named c1 in namespace ns. -/
def boundClaimC1 : PVClaim :=
  { name := "c1", nspace := "ns", uid := "u1", phase := ClaimPhase.Bound,
    anns := [], storageClassName := none }

/-- A concrete Bound claim named other in namespace ns. -/
def boundClaimOther : PVClaim :=
  { name := "other", nspace := "ns", uid := "u2", phase := ClaimPhase.Bound,
    anns := [], storageClassName := none }

/-! ## C1 -/

/-- C1 is false as stated: with an empty cache and a maximum wait of 2 time
units the resolver sleeps three times, not twice; and on a non-empty cache with
no matching entry it does not sleep-and-retry at all (it gives up after one
scan with no sleeps and no returned claim). -/
theorem C1_counterexample :
    (getClaimFromPVCName [] "ns" "c1" 2).sleeps = 3 ∧
    ¬ (getClaimFromPVCName [] "ns" "c1" 2).sleeps = 2 ∧
    (getClaimFromPVCName [boundClaimOther] "ns" "c1" 2).sleeps = 0 ∧
    (getClaimFromPVCName [boundClaimOther] "ns" "c1" 2).claim = none := by
  rw [getClaimFromPVCName_empty, getClaimFromPVCName_cons]
  refine ⟨rfl, by simp, rfl, rfl⟩

/-- C1 (amended): the resolver polls the locally cached claim set only for
non-emptiness.  A cached claim matching name, namespace and Bound phase is
returned immediately without sleeping; while the cache stays empty the resolver
sleeps one time unit per iteration and, with a maximum wait of maxWait, sleeps
exactly maxWait + 1 times (three for maximum wait 2) before failing with a
not-found error and one warning event. -/
theorem C1_cross_reference_poll (cache : List PVClaim) (pvNspace claimName : String)
    (maxWait : Nat) (c : PVClaim) :
    (cache.find? (claimMatches pvNspace claimName) = some c →
      getClaimFromPVCName cache pvNspace claimName maxWait =
        { claim := some c, err := none, sleeps := 0, warnEvents := 0 }) ∧
    (getClaimFromPVCName [] pvNspace claimName maxWait =
      { claim := none,
        err := some ("No Claims found after waiting for " ++ toString maxWait
          ++ " seconds"),
        sleeps := maxWait + 1, warnEvents := 1 }) := by
  refine ⟨?_, getClaimFromPVCName_empty pvNspace claimName maxWait⟩
  intro h
  cases cache with
  | nil => simp at h
  | cons a rest =>
    rw [getClaimFromPVCName_cons, h]

theorem C1_cross_reference_poll_witness :
    getClaimFromPVCName [boundClaimC1] "ns" "c1" 2 =
      { claim := some boundClaimC1, err := none, sleeps := 0, warnEvents := 0 } :=
  (C1_cross_reference_poll [boundClaimC1] "ns" "c1" 2 boundClaimC1).1 rfl

/-! ## C2 -/

/-- C2: the code slip — on a non-empty cache holding no claim that matches the
requested name, namespace and Bound phase, getClaimFromPVCName emits its
warning event yet returns a nil error together with a nil claim, instead of the
non-nil not-found error the spec requires. -/
theorem C2_no_match_nil_error :
    getClaimFromPVCName [boundClaimOther] "ns" "c1" 2 =
      { claim := none, err := none, sleeps := 0, warnEvents := 1 } := by
  rw [getClaimFromPVCName_cons]
  rfl

/-! ## C4 -/

/-- C4: class-name resolution returns the legacy beta annotation's value
whenever that annotation key is present, regardless of the structured field;
when the key is absent it returns the structured field's value, or "" when that
is unset too. -/
theorem C4_claim_class_name (claim : PVClaim) :
    (∀ v, mapGet claim.anns betaStorageClassKey = (v, true) →
      getClaimClassName claim = v) ∧
    (mapGet claim.anns betaStorageClassKey = ("", false) →
      getClaimClassName claim = claim.storageClassName.getD "") := by
  constructor
  · intro v h
    unfold getClaimClassName
    rw [h]
    simp
  · intro h
    unfold getClaimClassName
    rw [h]
    cases hs : claim.storageClassName <;> simp [hs]

/-- A concrete Pending claim carrying the legacy annotation and a structured
class name. -/
def pendingClaimBoth : PVClaim :=
  { name := "p1", nspace := "ns", uid := "u3", phase := ClaimPhase.Pending,
    anns := [(betaStorageClassKey, "gold")], storageClassName := some "silver" }

/-- A concrete Pending claim carrying only a structured class name. -/
def pendingClaimStructured : PVClaim :=
  { name := "p2", nspace := "ns", uid := "u4", phase := ClaimPhase.Pending,
    anns := [], storageClassName := some "silver" }

theorem C4_claim_class_name_witness :
    getClaimClassName pendingClaimBoth = "gold" ∧
    getClaimClassName pendingClaimStructured = "silver" := by
  constructor
  · exact (C4_claim_class_name pendingClaimBoth).1 "gold" rfl
  · simpa using (C4_claim_class_name pendingClaimStructured).2 rfl

/-! ## C5 -/

/-- C5: the add-event handler provisions (registering the claim's UID in the
dedup table and dispatching provisionVolume) exactly when the claim's phase is
Pending, the class lookup for the resolved class name succeeds, and the class's
provisioner identifier starts with the configured name prefix; in every other
case it skips. -/
theorem C5_added_claim_gate (namePfx : String)
    (getClass : String → Except String StorageClass) (claim : PVClaim)
    (cls : StorageClass) :
    processAddedClaim namePfx getClass claim
        = AddedClaimOutcome.provisioned claim.uid cls ↔
      (claim.phase = ClaimPhase.Pending ∧
        getClass (getClaimClassName claim) = Except.ok cls ∧
        hasPfx cls.provisioner namePfx = true) := by
  constructor
  · intro h
    unfold processAddedClaim at h
    by_cases hp : claim.phase = ClaimPhase.Pending
    · simp only [hp, ne_eq, not_true_eq_false, if_false] at h
      cases hg : getClass (getClaimClassName claim) with
      | error e => rw [hg] at h; simp at h
      | ok c =>
        rw [hg] at h
        by_cases hs : hasPfx c.provisioner namePfx = true
        · simp only [hs, Bool.not_true, Bool.false_eq_true, if_false] at h
          injection h with h1 h2
          subst h2
          exact ⟨hp, rfl, hs⟩
        · simp only [Bool.not_eq_true] at hs
          simp [hs] at h
    · simp [hp] at h
  · rintro ⟨hp, hg, hs⟩
    unfold processAddedClaim
    simp [hp, hg, hs]

/-- A concrete class store holding one class, gold, owned by provisioner
dory/docker. -/
def goldClassStore (n : String) : Except String StorageClass :=
  if n = "gold" then Except.ok { name := "gold", provisioner := "dory/docker" }
  else Except.error "class not found"

/-- A concrete Pending claim referencing class gold through the legacy
annotation. -/
def pendingGoldClaim : PVClaim :=
  { name := "p3", nspace := "ns", uid := "uid-3", phase := ClaimPhase.Pending,
    anns := [(betaStorageClassKey, "gold")], storageClassName := none }

theorem C5_added_claim_gate_witness :
    processAddedClaim "dory/" goldClassStore pendingGoldClaim =
      AddedClaimOutcome.provisioned "uid-3"
        { name := "gold", provisioner := "dory/docker" } :=
  (C5_added_claim_gate "dory/" goldClassStore pendingGoldClaim
    { name := "gold", provisioner := "dory/docker" }).mpr ⟨rfl, rfl, rfl⟩

/-! ## C8 -/

/-- The inner annotation scan of getClaimOverrideOptions is the identity when
no annotation key carries the (name prefix ++ lowercased override) marker. -/
theorem overrideScan_no_match (namePfx override : String)
    (anns : List (String × String)) (acc : List (String × String))
    (h : ∀ kv ∈ anns,
      hasPfx (toLowerStr kv.1) (namePfx ++ toLowerStr override) = false) :
    anns.foldl
      (fun acc2 kv =>
        if hasPfx (toLowerStr kv.1) (namePfx ++ toLowerStr override) then
          mapSet acc2 override kv.2
        else
          acc2)
      acc = acc := by
  induction anns generalizing acc with
  | nil => rfl
  | cons kv rest ih =>
    rw [List.foldl_cons, if_neg (by simp [h kv (List.mem_cons_self kv rest)])]
    exact ih acc (fun x hx => h x (List.mem_cons_of_mem kv hx))

/-- getClaimOverrideOptions is the identity when no annotation key matches any
override key. -/
theorem getClaimOverrideOptions_no_match (namePfx : String) (claim : PVClaim)
    (overrides : List String) (optionsMap : List (String × String)) :
    (∀ kv ∈ claim.anns, ∀ o ∈ overrides,
      hasPfx (toLowerStr kv.1) (namePfx ++ toLowerStr o) = false) →
    getClaimOverrideOptions namePfx claim overrides optionsMap = optionsMap := by
  unfold getClaimOverrideOptions
  induction overrides generalizing optionsMap with
  | nil => intro h; rfl
  | cons o os ih =>
    intro h
    rw [List.foldl_cons,
      overrideScan_no_match namePfx o claim.anns optionsMap
        (fun kv hkv => h kv hkv o (List.mem_cons_self o os))]
    exact ih optionsMap (fun kv hkv o' ho' => h kv hkv o' (List.mem_cons_of_mem o ho'))

/-- A concrete Pending claim with annotation p.a = 2. -/
def overrideClaim : PVClaim :=
  { name := "p4", nspace := "ns", uid := "u5", phase := ClaimPhase.Pending,
    anns := [("p.a", "2")], storageClassName := none }

/-- A concrete Pending claim whose only annotation key, x, matches no override. -/
def unmatchedClaim : PVClaim :=
  { name := "p5", nspace := "ns", uid := "u6", phase := ClaimPhase.Pending,
    anns := [("x", "9")], storageClassName := none }

/-- C8: override merge — an annotation key matches an override key exactly when
the lowercased annotation key starts with the configured name prefix followed
by the lowercased override key; a match writes the annotation's value over any
existing value for the override key in the base mapping; annotation keys that
match nothing leave the base mapping unchanged; and in particular base
(a, 1) with prefix p., override a and annotation (p.a, 2) yields (a, 2). -/
theorem C8_override_merge (namePfx : String) (claim : PVClaim)
    (overrides : List String) (optionsMap : List (String × String)) :
    ((∀ kv ∈ claim.anns, ∀ o ∈ overrides,
        hasPfx (toLowerStr kv.1) (namePfx ++ toLowerStr o) = false) →
      getClaimOverrideOptions namePfx claim overrides optionsMap = optionsMap) ∧
    (∀ k v o, claim.anns = [(k, v)] →
      getClaimOverrideOptions namePfx claim [o] optionsMap =
        (if hasPfx (toLowerStr k) (namePfx ++ toLowerStr o) then
          mapSet optionsMap o v
        else
          optionsMap)) ∧
    (getClaimOverrideOptions "p." overrideClaim ["a"] [("a", "1")] = [("a", "2")]) := by
  refine ⟨getClaimOverrideOptions_no_match namePfx claim overrides optionsMap, ?_, rfl⟩
  intro k v o hanns
  unfold getClaimOverrideOptions
  rw [hanns]
  simp [List.foldl_cons, List.foldl_nil]

theorem C8_override_merge_witness :
    getClaimOverrideOptions "p." unmatchedClaim ["a"] [("a", "1")] = [("a", "1")] :=
  (C8_override_merge "p." unmatchedClaim ["a"] [("a", "1")]).1 (by decide)

/-! ## C3 -/

theorem driverErrorCheck_get (g : GetResponse) :
    driverErrorCheck g = if g.err = "" then none else some g.err := by
  unfold driverErrorCheck
  rw [getErr_get]
  by_cases h : g.err = "" <;> simp [h]

theorem driverErrorCheck_getList (g : GetListResponse) :
    driverErrorCheck g = if g.err = "" then none else some g.err := by
  unfold driverErrorCheck
  rw [getErr_getList]
  by_cases h : g.err = "" <;> simp [h]

theorem driverErrorCheck_mount (g : MountResponse) :
    driverErrorCheck g = if g.err = "" then none else some g.err := by
  unfold driverErrorCheck
  rw [getErr_mount]
  by_cases h : g.err = "" <;> simp [h]

/-- C3 is false as stated for Capabilities: a wire response that reports the
error "boom" decodes to a CapResponse carrying no error information (the
struct declares no Err field), and the operation treats it as success rather
than failing with "boom". -/
theorem C3_counterexample :
    Capabilities (Except.ok (decodeCapResponse
      { capabilities := { scope := "global" }, err := "boom" })) =
      Except.ok { capabilities := { scope := "global" } } ∧
    ({ capabilities := { scope := "global" }, err := "boom" } : RawWireResponse).err
      ≠ "" :=
  ⟨rfl, by decide⟩

/-- C3 (amended): Get, List, Create, Mount, Unmount and Delete each inspect the
decoded response's error field before treating the response as success — an
empty field means success and a non-empty field becomes a failure whose message
is exactly the field's text, taking priority over any success payload.
Capabilities performs no such check: its response type declares no error field
(a wire-level error field is dropped at decode), so the call succeeds whenever
the transport did. -/
theorem C3_uniform_error_check (name mountID : String) (g : GetResponse)
    (l : GetListResponse) (m : MountResponse) (c : CapResponse)
    (stripK8sOpts : Bool) (options : List (String × String)) :
    (Get (Except.ok g) = if g.err = "" then Except.ok g else Except.error g.err) ∧
    (ListVolumes (Except.ok l) =
      if l.err = "" then Except.ok l else Except.error l.err) ∧
    (name ≠ "" →
      (Create stripK8sOpts name options (fun _ => Except.ok g)).result =
        if g.err = "" then Except.ok g.volume.name else Except.error g.err) ∧
    (name ≠ "" →
      Mount name mountID (Except.ok m) =
        if m.err = "" then Except.ok m.mountpoint else Except.error m.err) ∧
    (name ≠ "" →
      Unmount name mountID (Except.ok m) =
        if m.err = "" then Except.ok () else Except.error m.err) ∧
    (name ≠ "" →
      Delete name (Except.ok g) =
        if g.err = "" then Except.ok () else Except.error g.err) ∧
    (Capabilities (Except.ok c) = Except.ok c) := by
  refine ⟨?_, ?_, ?_, ?_, ?_, ?_, rfl⟩
  · by_cases h : g.err = "" <;> simp [Get, driverErrorCheck_get, h]
  · by_cases h : l.err = "" <;> simp [ListVolumes, driverErrorCheck_getList, h]
  · intro hn
    by_cases h : g.err = "" <;> simp [Create, driverErrorCheck_get, hn, h]
  · intro hn
    by_cases h : m.err = "" <;> simp [Mount, mounter, driverErrorCheck_mount, hn, h]
  · intro hn
    by_cases h : m.err = "" <;>
      simp [Unmount, mounter, driverErrorCheck_mount, hn, h]
  · intro hn
    by_cases h : g.err = "" <;> simp [Delete, driverErrorCheck_get, hn, h]

theorem C3_uniform_error_check_witness :
    Mount "v1" "id1" (Except.ok { mountpoint := "/mnt", err := "boom" }) =
      Except.error "boom" ∧
    Get (Except.ok { volume := { name := "v1", mountpoint := "" }, err := "" }) =
      Except.ok { volume := { name := "v1", mountpoint := "" }, err := "" } := by
  constructor
  · have h := (C3_uniform_error_check "v1" "id1"
      { volume := { name := "v1", mountpoint := "" }, err := "" }
      { volumes := [], err := "" } { mountpoint := "/mnt", err := "boom" }
      { capabilities := { scope := "" } } false []).2.2.2.1 (by decide)
    simpa using h
  · have h := (C3_uniform_error_check "v1" "id1"
      { volume := { name := "v1", mountpoint := "" }, err := "" }
      { volumes := [], err := "" } { mountpoint := "/mnt", err := "boom" }
      { capabilities := { scope := "" } } false []).1
    simpa using h

/-! ## C6 -/

/-- Every binding surviving the Create strip loop has a key different from
"name" and, when stripping is configured, a key without the kubernetes.io
marker. -/
theorem mem_stripCreateOpts (stripK8sOpts : Bool) (options : List (String × String))
    (kv : String × String) (h : kv ∈ stripCreateOpts stripK8sOpts options) :
    kv.1 ≠ "name" ∧ (stripK8sOpts = true → hasPfx kv.1 "kubernetes.io" = false) := by
  unfold stripCreateOpts at h
  have h2 := List.of_mem_filter h
  simp only [Bool.not_eq_true', Bool.or_eq_false_iff, Bool.and_eq_false_iff,
    beq_eq_false_iff_ne, ne_eq] at h2
  constructor
  · exact h2.1
  · intro hs
    rcases h2.2 with hb | hb
    · rw [hs] at hb; exact Bool.noConfusion hb
    · exact hb

theorem C6_create_strips (stripK8sOpts : Bool) (name : String)
    (options : List (String × String))
    (driver : Request → Except String GetResponse) :
    (name = "" →
      Create stripK8sOpts name options driver =
        { result := Except.error "name is required", sentRequest := none,
          finalOptions := options }) ∧
    (name ≠ "" →
      (Create stripK8sOpts name options driver).sentRequest =
        some { name := name, opts := stripCreateOpts stripK8sOpts options } ∧
      ∀ kv ∈ stripCreateOpts stripK8sOpts options,
        kv.1 ≠ "name" ∧ (stripK8sOpts = true → hasPfx kv.1 "kubernetes.io" = false)) := by
  constructor
  · intro h
    simp [Create, h]
  · intro h
    refine ⟨?_, fun kv hkv => mem_stripCreateOpts stripK8sOpts options kv hkv⟩
    rcases hd : driver { name := name, opts := stripCreateOpts stripK8sOpts options }
      with e | res
    · simp [Create, h, hd]
    · rcases hdc : driverErrorCheck res with _ | e2 <;> simp [Create, h, hd, hdc]

theorem C6_create_strips_witness :
    (Create true "v1" [("name", "x"), ("kubernetes.io/f", "y"), ("size", "10")]
        (fun _ => Except.error "down")).sentRequest =
      some { name := "v1",
             opts := stripCreateOpts true
               [("name", "x"), ("kubernetes.io/f", "y"), ("size", "10")] } :=
  ((C6_create_strips true "v1" [("name", "x"), ("kubernetes.io/f", "y"), ("size", "10")]
    (fun _ => Except.error "down")).2 (by decide)).1

/-! ## C10 -/

/-- C10 is false as stated: a Create call with an empty name returns before the
strip loop runs, so the caller's mapping still contains its "name" key after
the call. -/
theorem C10_counterexample :
    (Create true "" [("name", "x")] (fun _ => Except.error "down")).finalOptions =
      [("name", "x")] ∧
    ("name", "x") ∈ (Create true "" [("name", "x")]
      (fun _ => Except.error "down")).finalOptions := by
  refine ⟨rfl, ?_⟩
  rw [show (Create true "" [("name", "x")]
    (fun _ => Except.error "down")).finalOptions = [("name", "x")] from rfl]
  exact List.mem_singleton.mpr rfl

/-- C10 (amended): for every Create call with a non-empty name, the strip
deletes keys from the caller's options mapping itself: after the call — even a
failing one — the caller's mapping is exactly the stripped mapping, holding no
"name" key and, when stripping is configured, no kubernetes.io-prefixed key. -/
theorem C10_create_mutates_options (stripK8sOpts : Bool) (name : String)
    (options : List (String × String))
    (driver : Request → Except String GetResponse) (h : name ≠ "") :
    (Create stripK8sOpts name options driver).finalOptions =
      stripCreateOpts stripK8sOpts options ∧
    ∀ kv ∈ (Create stripK8sOpts name options driver).finalOptions,
      kv.1 ≠ "name" ∧ (stripK8sOpts = true → hasPfx kv.1 "kubernetes.io" = false) := by
  have hfo : (Create stripK8sOpts name options driver).finalOptions =
      stripCreateOpts stripK8sOpts options := by
    rcases hd : driver { name := name, opts := stripCreateOpts stripK8sOpts options }
      with e | res
    · simp [Create, h, hd]
    · rcases hdc : driverErrorCheck res with _ | e2 <;> simp [Create, h, hd, hdc]
  refine ⟨hfo, ?_⟩
  rw [hfo]
  exact fun kv hkv => mem_stripCreateOpts stripK8sOpts options kv hkv

theorem C10_create_mutates_options_witness :
    (Create true "v1" [("name", "x"), ("kubernetes.io/f", "y"), ("size", "10")]
        (fun _ => Except.error "down")).finalOptions =
      stripCreateOpts true [("name", "x"), ("kubernetes.io/f", "y"), ("size", "10")] :=
  (C10_create_mutates_options true "v1"
    [("name", "x"), ("kubernetes.io/f", "y"), ("size", "10")]
    (fun _ => Except.error "down") (by decide)).1

/-! ## C7 -/

/-- When no registry entry matches, the discovery scan returns the
plugin-not-found error. -/
theorem findV2PluginSocket_no_match (name : String) (plugins : List DockerPlugin)
    (h : ∀ q ∈ plugins, pluginNameMatches name q = false) :
    findV2PluginSocket name plugins =
      ("", some ("unable to find V2 plugin named " ++ name)) := by
  induction plugins with
  | nil => rfl
  | cons p rest ih =>
    simp only [findV2PluginSocket]
    rw [if_neg (by simp [h p (List.mem_cons_self p rest)])]
    exact ih (fun q hq => h q (List.mem_cons_of_mem p hq))

/-- The discovery scan skips a run of non-matching registry entries. -/
theorem findV2PluginSocket_skip (name : String) (pre rest : List DockerPlugin)
    (h : ∀ q ∈ pre, pluginNameMatches name q = false) :
    findV2PluginSocket name (pre ++ rest) = findV2PluginSocket name rest := by
  induction pre with
  | nil => rfl
  | cons q qs ih =>
    rw [List.cons_append]
    simp only [findV2PluginSocket]
    rw [if_neg (by simp [h q (List.mem_cons_self q qs)])]
    exact ih (fun x hx => h x (List.mem_cons_of_mem q hx))

/-- On the first matching entry, the discovery scan returns the synthesized
socket path, with an error exactly when the plugin is disabled. -/
theorem findV2PluginSocket_match (name : String) (p : DockerPlugin)
    (post : List DockerPlugin) (hp : pluginNameMatches name p = true) :
    findV2PluginSocket name (p :: post) =
      (pluginSocketPath p,
        if p.enabled then none
        else some ("found Docker V2 Plugin named " ++ name
          ++ ", but it is disabled")) := by
  simp only [findV2PluginSocket, hp, if_true]
  cases he : p.enabled <;> simp [he]

/-- C7: plugin discovery accepts a registry entry whose name equals the
requested name or the requested name with the default :latest tag appended; an
enabled match yields the socket path synthesized from the plugin's identifier
and socket filename under /run/docker/plugins; a disabled match fails while
still yielding that path; no match yields a plugin-not-found error. -/
theorem C7_plugin_discovery (name : String) (pre post : List DockerPlugin)
    (p : DockerPlugin) (plugins : List DockerPlugin) :
    ((∀ q ∈ plugins, pluginNameMatches name q = false) →
      getV2PluginSocket (Except.ok plugins) name =
        ("", some ("unable to find V2 plugin named " ++ name))) ∧
    ((∀ q ∈ pre, pluginNameMatches name q = false) →
      pluginNameMatches name p = true →
      getV2PluginSocket (Except.ok (pre ++ p :: post)) name =
        (pluginSocketPath p,
          if p.enabled then none
          else some ("found Docker V2 Plugin named " ++ name
            ++ ", but it is disabled"))) := by
  constructor
  · intro h
    exact findV2PluginSocket_no_match name plugins h
  · intro hpre hp
    show findV2PluginSocket name (pre ++ p :: post) = _
    rw [findV2PluginSocket_skip name pre (p :: post) hpre,
      findV2PluginSocket_match name p post hp]

/-- A concrete enabled registry entry named nimble. -/
def nimblePlugin : DockerPlugin :=
  { name := "nimble", id := "X", enabled := true, socket := "nimble.sock" }

/-- A concrete registry entry carrying the default :latest tag. -/
def taggedPlugin : DockerPlugin :=
  { name := "nimble:latest", id := "Y", enabled := true, socket := "nimble.sock" }

theorem C7_plugin_discovery_witness :
    getV2PluginSocket (Except.ok [nimblePlugin]) "nimble" =
      (pluginSocketPath nimblePlugin, none) ∧
    getV2PluginSocket (Except.ok [taggedPlugin]) "nimble" =
      (pluginSocketPath taggedPlugin, none) ∧
    getV2PluginSocket (Except.ok [nimblePlugin]) "missing" =
      ("", some "unable to find V2 plugin named missing") := by
  refine ⟨?_, ?_, ?_⟩
  · have h := (C7_plugin_discovery "nimble" [] [] nimblePlugin []).2
      (by simp) rfl
    simpa using h
  · have h := (C7_plugin_discovery "nimble" [] [] taggedPlugin []).2
      (by simp) rfl
    simpa using h
  · have h := (C7_plugin_discovery "missing" [] [] nimblePlugin [nimblePlugin]).1
      (by decide)
    simpa using h

/-! ## C9 -/

/-- C9: construction treats a locator without a leading "/" as a plugin name
and resolves it through discovery, failing with the discovery error; a locator
that is empty after the resolution step is replaced by the default socket
path; and when the post-construction Capabilities probe fails, construction
returns both the built client and the probe's error. -/
theorem C9_construction (pluginsGet : Except String (List DockerPlugin))
    (disc : String → String × Option String)
    (capProbe : String → Except String CapResponse) (options : Options)
    (e : String) :
    (hasPfx options.socketPath "/" = false →
      (getV2PluginSocket pluginsGet options.socketPath).2 = some e →
      NewDockerVolumePlugin pluginsGet capProbe options =
        { dvp := none, err := some e }) ∧
    (hasPfx options.socketPath "/" = false →
      disc options.socketPath = ("", none) →
      (newDockerVolumePluginWith disc capProbe options).dvp =
        some { stripK8sOpts := options.stripK8sFromOptions,
               socketPath := defaultSocketPath,
               listOfStorageResourceOptions := options.listOfStorageResourceOptions,
               factorForConversion := options.factorForConversion }) ∧
    (∀ sp,
      resolveSocketPath (getV2PluginSocket pluginsGet) options.socketPath =
        (sp, none) →
      capProbe (if sp = "" then defaultSocketPath else sp) = Except.error e →
      NewDockerVolumePlugin pluginsGet capProbe options =
        { dvp := some { stripK8sOpts := options.stripK8sFromOptions,
                        socketPath := if sp = "" then defaultSocketPath else sp,
                        listOfStorageResourceOptions :=
                          options.listOfStorageResourceOptions,
                        factorForConversion := options.factorForConversion },
          err := some e }) := by
  refine ⟨?_, ?_, ?_⟩
  · intro h1 h2
    rcases hr : getV2PluginSocket pluginsGet options.socketPath with ⟨sp1, e1⟩
    rw [hr] at h2
    simp only at h2
    subst h2
    simp [NewDockerVolumePlugin, newDockerVolumePluginWith, resolveSocketPath, h1, hr]
  · intro h1 h2
    simp only [newDockerVolumePluginWith, resolveSocketPath, h1, Bool.not_false,
      if_true, h2]
    cases hcp : capProbe defaultSocketPath <;> simp [Capabilities, hcp]
  · intro sp hr hc
    simp [NewDockerVolumePlugin, newDockerVolumePluginWith, hr, hc, Capabilities]

/-- Concrete construction options with a non-absolute locator, nimble. -/
def nimbleOptions : Options :=
  { socketPath := "nimble", stripK8sFromOptions := false,
    listOfStorageResourceOptions := [], factorForConversion := 0 }

/-- Concrete construction options with an absolute locator. -/
def absOptions : Options :=
  { socketPath := "/tmp/plugin.sock", stripK8sFromOptions := false,
    listOfStorageResourceOptions := [], factorForConversion := 0 }

/-- A concrete successful Capabilities payload. -/
def capOkResponse : CapResponse := { capabilities := { scope := "global" } }

theorem C9_construction_witness :
    NewDockerVolumePlugin (Except.error "boom") (fun _ => Except.ok capOkResponse)
      nimbleOptions =
      { dvp := none, err := some "failed to get V2 plugins from docker. error=boom" } ∧
    NewDockerVolumePlugin (Except.ok []) (fun _ => Except.error "probe failed")
      absOptions =
      { dvp := some { stripK8sOpts := false, socketPath := "/tmp/plugin.sock",
                      listOfStorageResourceOptions := [], factorForConversion := 0 },
        err := some "probe failed" } ∧
    (newDockerVolumePluginWith (fun _ => ("", none))
      (fun _ => Except.ok capOkResponse) nimbleOptions).dvp =
      some { stripK8sOpts := false, socketPath := defaultSocketPath,
             listOfStorageResourceOptions := [], factorForConversion := 0 } := by
  refine ⟨?_, ?_, ?_⟩
  · exact (C9_construction (Except.error "boom") (fun _ => ("", none))
      (fun _ => Except.ok capOkResponse) nimbleOptions
      "failed to get V2 plugins from docker. error=boom").1 rfl rfl
  · have h := (C9_construction (Except.ok []) (fun _ => ("", none))
      (fun _ => Except.error "probe failed") absOptions "probe failed").2.2
      "/tmp/plugin.sock" rfl (by rfl)
    simpa using h
  · exact (C9_construction (Except.ok []) (fun _ => ("", none))
      (fun _ => Except.ok capOkResponse) nimbleOptions "unused").2.1 rfl rfl
